import Mathlib

/-!
Verification development for the DPR repository: a shallow embedding of the
GRPO loss pipeline (src/GRPO/GRPO.py), the supervised loss engine
(src/DPR/model/DPR.py) and the goal-predictor loss, together with theorems
settling the specification claims.

Tensors are embedded as functions over Fin-indexed dimensions with values in
the reals; torch reductions (mean, sum) become Finset sums divided by the
element count, exactly as torch computes them.
-/

namespace DPRSpec

noncomputable section

/-! ### GRPO loss pipeline (src/GRPO/GRPO.py, forward_and_get_loss)

The code stacks per-candidate tensors over the group dimension first, giving
rewards and likelihood proxies indexed [G, B]; it then permutes them to
[B, G] before the advantage/ratio arithmetic.  We embed both layouts.  -/

/-- Per-candidate masked action error, from GRPO.py: for candidate g,
action_diff = F.mse_loss(denoised_actions[g], gt_actions_normalized,
reduction=none) * gt_actions_valid.unsqueeze(-1), then .mean(dim=(1,2,3)),
i.e. the squared differences are zeroed where the validity mask is false and
averaged over all A*T*D entries.  In the source the prediction is the
(unnormalized) denoised action tensor and the target is the normalized
ground-truth action tensor, exactly as written there. -/
def actionDiffOf (A T D : ℕ) (pred gt : Fin A → Fin T → Fin D → ℝ)
    (valid : Fin A → Fin T → Bool) : ℝ :=
  (∑ a, ∑ t, ∑ d, (pred a t d - gt a t d) ^ 2 * (if valid a t then (1 : ℝ) else 0)) /
    (A * T * D)

/-- GRPO.py: ratios = torch.exp(ref_diff - action_differences), where
ref_diff is the reference-policy action error and action_differences the
trainable-policy action error on the same candidate. -/
def ratioOf (A T D : ℕ) (cur ref gt : Fin A → Fin T → Fin D → ℝ)
    (valid : Fin A → Fin T → Bool) : ℝ :=
  Real.exp (actionDiffOf A T D ref gt valid - actionDiffOf A T D cur gt valid)

/-- GRPO.py: rewards.permute(1, 0) — the [G, B] stack viewed as [B, G]. -/
def permuteGB (G B : ℕ) (x : Fin G → Fin B → ℝ) : Fin B → Fin G → ℝ :=
  fun b g => x g b

/-- GRPO.py: group_mean = rewards.mean(dim=1, keepdim=True) on the [B, G]
reward tensor. -/
def groupMean (B G : ℕ) (r : Fin B → Fin G → ℝ) (b : Fin B) : ℝ :=
  (∑ g, r b g) / G

/-- GRPO.py: advantages = rewards - group_mean. -/
def advantagesOf (B G : ℕ) (r : Fin B → Fin G → ℝ) : Fin B → Fin G → ℝ :=
  fun b g => r b g - groupMean B G r b

/-- torch.clamp(x, min=1e-8, max=10). -/
def clampRatioVal (x : ℝ) : ℝ :=
  min (max x 1e-8) 10

/-- GRPO.py: log_ratios = torch.log(torch.clamp(ratios, min=1e-8, max=10)). -/
def logRatiosOf (B G : ℕ) (q : Fin B → Fin G → ℝ) : Fin B → Fin G → ℝ :=
  fun b g => Real.log (clampRatioVal (q b g))

/-- GRPO.py: policy_loss = -(advantages * log_ratios).mean() over the
[B, G] tensor. -/
def policyLossOf (B G : ℕ) (r q : Fin B → Fin G → ℝ) : ℝ :=
  -((∑ b, ∑ g, advantagesOf B G r b g * logRatiosOf B G q b g) / (B * G))

/-- GRPO.py: kl_div = (ratios - 1 - log_ratios).mean(); note the linear term
uses the unclamped ratio while the logarithmic term is the clamped one. -/
def klDivOf (B G : ℕ) (q : Fin B → Fin G → ℝ) : ℝ :=
  (∑ b, ∑ g, (q b g - 1 - logRatiosOf B G q b g)) / (B * G)

/-- GRPO.py: total_loss = policy_loss + beta * kl_div, computed from the
[G, B] stacked rewards and ratios after the permute to [B, G]. -/
def grpoTotalLoss (G B : ℕ) (beta : ℝ) (rewardsGB ratiosGB : Fin G → Fin B → ℝ) : ℝ :=
  policyLossOf B G (permuteGB G B rewardsGB) (permuteGB G B ratiosGB) +
    beta * klDivOf B G (permuteGB G B ratiosGB)

/-! Spec-shaped formulas for the refinement claim C2, written from the spec
sentences: policy_loss = -mean(advantage * log(clamp(ratio, 1e-8, 10))) over
the group and batch, and kl = mean(ratio - 1 - log(clamp(ratio, 1e-8, 10))),
the ratio clamped before each logarithm is taken; here indexed candidate
first, batch second, as the spec speaks of per-candidate quantities. -/

/-- Spec formula for the policy objective, mean over group then batch. -/
def specPolicyLoss (G B : ℕ) (rewards ratios : Fin G → Fin B → ℝ) : ℝ :=
  -((∑ g, ∑ b,
      (rewards g b - (∑ g2, rewards g2 b) / G) *
        Real.log (min (max (ratios g b) 1e-8) 10)) / (B * G))

/-- Spec formula for the KL estimator, mean over group then batch. -/
def specKLDiv (G B : ℕ) (ratios : Fin G → Fin B → ℝ) : ℝ :=
  (∑ g, ∑ b, (ratios g b - 1 - Real.log (min (max (ratios g b) 1e-8) 10))) / (B * G)

/-- Claim C1: GRPO advantage centering — for every batch element the
advantages are the rewards minus the group mean, and both the sum and the
mean of the centered advantages over the group are exactly 0. -/
theorem grpo_advantage_centering (B G : ℕ) (hG : 0 < G)
    (r : Fin B → Fin G → ℝ) (b : Fin B) :
    (∀ g, advantagesOf B G r b g = r b g - (∑ g2, r b g2) / G) ∧
    (∑ g, advantagesOf B G r b g) = 0 ∧
    (∑ g, advantagesOf B G r b g) / G = 0 := by
  have hG' : (G : ℝ) ≠ 0 := Nat.cast_ne_zero.mpr hG.ne'
  have hsum : (∑ g, advantagesOf B G r b g) = 0 := by
    simp only [advantagesOf, groupMean, Finset.sum_sub_distrib, Finset.sum_const,
      Finset.card_univ, Fintype.card_fin, nsmul_eq_mul]
    field_simp
  refine ⟨fun g => rfl, hsum, by rw [hsum]; simp⟩

/-- Witness for C1 at a concrete group of three rewards. -/
theorem grpo_advantage_centering_witness :
    (∑ g, advantagesOf 1 3 (fun _ => ![(2 : ℝ), 5, -1]) 0 g) = 0 :=
  (grpo_advantage_centering 1 3 (by norm_num) (fun _ => ![(2 : ℝ), 5, -1]) 0).2.1

/-- Exchanging the batch and group summation order. -/
lemma sum_swap_fin (m n : ℕ) (f : Fin m → Fin n → ℝ) :
    ∑ a, ∑ b, f a b = ∑ b, ∑ a, f a b :=
  Finset.sum_comm

/-- Claim C2: the GRPO total loss equals policy_loss + beta * kl, where
policy_loss is minus the mean over group and batch of
advantage * log(clamp(ratio, 1e-8, 10)) and kl is the mean of
ratio - 1 - log(clamp(ratio, 1e-8, 10)); the ratio is clamped to
[1e-8, 10] before each logarithm is taken. -/
theorem grpo_total_loss_formula (G B : ℕ) (beta : ℝ)
    (rewardsGB ratiosGB : Fin G → Fin B → ℝ) :
    grpoTotalLoss G B beta rewardsGB ratiosGB =
      specPolicyLoss G B rewardsGB ratiosGB + beta * specKLDiv G B ratiosGB := by
  unfold grpoTotalLoss specPolicyLoss specKLDiv policyLossOf klDivOf
    advantagesOf logRatiosOf groupMean permuteGB clampRatioVal
  rw [sum_swap_fin G B, sum_swap_fin G B]

/-- Claim C3: the per-candidate fidelity ratio equals
exp(reference_error - current_error) over the validity-masked squared action
errors, and it exceeds 1 exactly when the current policy error is strictly
below the reference policy error. -/
theorem grpo_ratio_exp (A T D : ℕ) (cur ref gt : Fin A → Fin T → Fin D → ℝ)
    (valid : Fin A → Fin T → Bool) :
    ratioOf A T D cur ref gt valid =
      Real.exp (actionDiffOf A T D ref gt valid - actionDiffOf A T D cur gt valid) ∧
    (1 < ratioOf A T D cur ref gt valid ↔
      actionDiffOf A T D cur gt valid < actionDiffOf A T D ref gt valid) := by
  refine ⟨rfl, ?_⟩
  rw [ratioOf, Real.one_lt_exp_iff, sub_pos]

/-! ### Reference-policy lifecycle (src/GRPO/GRPO.py)

The module state of DPR_GRPO relevant to claim C4: the trainable denoiser
parameters, the reference-model parameters, and whether the reference
parameters require gradient.  Construction does
reference_model = copy.deepcopy(denoiser) followed by requires_grad = False
on every reference parameter; a training step only updates parameters with
requires_grad set (the reference is excluded); on_train_epoch_end loads a
deep copy of the denoiser state dict into the reference model
(load_state_dict copies values and leaves requires_grad untouched).  -/

structure GRPOModuleState (P : Type) where
  denoiser : P
  reference : P
  referenceRequiresGrad : Bool

/-- GRPO.py DPR_GRPO.__init__ lines 80-83: deep copy of the denoiser with
gradients disabled on every reference parameter. -/
def initGRPOModule {P : Type} (d : P) : GRPOModuleState P :=
  ⟨d, d, false⟩

/-- One optimizer step: updates only the trainable denoiser parameters. -/
def trainingStepUpdate {P : Type} (upd : P → P) (s : GRPOModuleState P) :
    GRPOModuleState P :=
  ⟨upd s.denoiser, s.reference, s.referenceRequiresGrad⟩

/-- GRPO.py on_train_epoch_end: load_state_dict of a deep copy of the
current denoiser parameters into the reference model; parameter values are
overwritten, the requires_grad flags are untouched. -/
def onTrainEpochEnd {P : Type} (s : GRPOModuleState P) : GRPOModuleState P :=
  ⟨s.denoiser, s.denoiser, s.referenceRequiresGrad⟩

/-- Events of one training run affecting the module state. -/
inductive GRPOEvent (P : Type) where
  | step : (P → P) → GRPOEvent P
  | epochEnd : GRPOEvent P

/-- Apply one event to the module state. -/
def applyEvent {P : Type} : GRPOEvent P → GRPOModuleState P → GRPOModuleState P
  | GRPOEvent.step upd, s => trainingStepUpdate upd s
  | GRPOEvent.epochEnd, s => onTrainEpochEnd s

/-- Run a sequence of events. -/
def runEvents {P : Type} : List (GRPOEvent P) → GRPOModuleState P → GRPOModuleState P
  | [], s => s
  | e :: es, s => runEvents es (applyEvent e s)

/-- Every event leaves the reference requires_grad flag unchanged. -/
lemma applyEvent_requiresGrad {P : Type} (e : GRPOEvent P) (s : GRPOModuleState P) :
    (applyEvent e s).referenceRequiresGrad = s.referenceRequiresGrad := by
  cases e <;> rfl

/-- Running events leaves the reference requires_grad flag unchanged. -/
lemma runEvents_requiresGrad {P : Type} (es : List (GRPOEvent P)) (s : GRPOModuleState P) :
    (runEvents es s).referenceRequiresGrad = s.referenceRequiresGrad := by
  induction es generalizing s with
  | nil => rfl
  | cons e es ih => rw [runEvents, ih, applyEvent_requiresGrad]

/-- Claim C4: reference-policy lifecycle invariant — at construction the
reference equals a copy of the denoiser with gradients disabled; the
gradient flag stays disabled through any run of training steps and epoch
ends; a training step never mutates the reference; an epoch end overwrites
the reference with the current denoiser parameters; and any stretch of the
run containing no epoch end leaves the reference untouched. -/
theorem reference_policy_lifecycle {P : Type} (d : P) (events : List (GRPOEvent P)) :
    (initGRPOModule d).reference = (initGRPOModule d).denoiser ∧
    (initGRPOModule d).referenceRequiresGrad = false ∧
    (runEvents events (initGRPOModule d)).referenceRequiresGrad = false ∧
    (∀ (upd : P → P) (s : GRPOModuleState P),
      (trainingStepUpdate upd s).reference = s.reference) ∧
    (∀ s : GRPOModuleState P, (onTrainEpochEnd s).reference = s.denoiser) ∧
    (∀ (es : List (GRPOEvent P)) (s : GRPOModuleState P),
      (∀ e ∈ es, e ≠ GRPOEvent.epochEnd) → (runEvents es s).reference = s.reference) := by
  refine ⟨rfl, rfl, runEvents_requiresGrad events _, fun upd s => rfl, fun s => rfl, ?_⟩
  intro es
  induction es with
  | nil => intro s _; rfl
  | cons e es ih =>
    intro s h
    rw [runEvents, ih _ (fun x hx => h x (List.mem_cons_of_mem e hx))]
    cases e with
    | step upd => rfl
    | epochEnd => exact absurd rfl (h _ (List.mem_cons_self _ _))

/-- Witness for C4 on a concrete run: one gradient step then an epoch end,
over natural-number parameters. -/
theorem reference_policy_lifecycle_witness :
    (runEvents [GRPOEvent.step Nat.succ] (initGRPOModule 0)).reference = 0 ∧
    (runEvents [GRPOEvent.step Nat.succ, GRPOEvent.epochEnd]
        (initGRPOModule 0)).referenceRequiresGrad = false := by
  have h := reference_policy_lifecycle 0 [GRPOEvent.step Nat.succ, GRPOEvent.epochEnd]
  refine ⟨?_, h.2.2.1⟩
  have h6 := h.2.2.2.2.2 [GRPOEvent.step Nat.succ] (initGRPOModule 0)
    (by intro e he; simp at he; subst he; simp)
  simpa [initGRPOModule] using h6

/-! ### Group noising with a shared diffusion timestep (src/GRPO/GRPO.py)

GRPO.forward_and_get_loss draws diffusion_steps = torch.randint(...,(B,))
once, broadcasts it over the agent dimension, and reuses the identical
tensor for every one of the G group candidates; only the Gaussian noise is
redrawn per candidate.  -/

/-- Modelled from the spec: DDPM_Sampler.add_noise lives in
src/DPR/model/utils.py which is not under src; spec section 4.1 defines it
as sqrt(abar_t) * x0 + sqrt(1 - abar_t) * noise for the schedule table
abar. -/
def addNoise (alphaBar : ℕ → ℝ) (x0 noise : ℝ) (t : ℕ) : ℝ :=
  Real.sqrt (alphaBar t) * x0 + Real.sqrt (1 - alphaBar t) * noise

/-- GRPO.py: diffusion_steps sampled with shape (B,), then
unsqueeze(-1).repeat(1, A) and unsqueeze(0).repeat(G, ...): one draw per
batch element, replicated over agents and over the whole group. -/
def diffusionStepsGroup (G B A : ℕ) (ts : Fin B → ℕ) :
    Fin G → Fin B → Fin A → ℕ :=
  fun _ b _ => ts b

/-- GRPO.py: for each candidate g, noised_action =
add_noise(gt_actions_normalized, noise_g, diffusion_steps) with a fresh
noise draw but the shared timestep tensor. -/
def noisedActionGroup (G B A T D : ℕ) (alphaBar : ℕ → ℝ)
    (gt : Fin B → Fin A → Fin T → Fin D → ℝ)
    (noises : Fin G → Fin B → Fin A → Fin T → Fin D → ℝ)
    (ts : Fin B → ℕ) :
    Fin G → Fin B → Fin A → Fin T → Fin D → ℝ :=
  fun g b a t d =>
    addNoise alphaBar (gt b a t d) (noises g b a t d) (diffusionStepsGroup G B A ts g b a)

/-- Claim C8: all G candidates of one training step share a single
diffusion-timestep draw — the per-candidate timestep tensor is the
batch-level draw replicated across agents and the group, so any two group
members see identical timesteps, and two candidates with equal noise draws
produce identical noised actions (only the noise differs between
candidates). -/
theorem grpo_shared_timestep (G B A T D : ℕ) (alphaBar : ℕ → ℝ)
    (gt : Fin B → Fin A → Fin T → Fin D → ℝ)
    (noises : Fin G → Fin B → Fin A → Fin T → Fin D → ℝ)
    (ts : Fin B → ℕ) :
    (∀ (g1 g2 : Fin G) (b : Fin B) (a : Fin A),
      diffusionStepsGroup G B A ts g1 b a = diffusionStepsGroup G B A ts g2 b a ∧
      diffusionStepsGroup G B A ts g1 b a = ts b) ∧
    (∀ g1 g2 : Fin G,
      (∀ b a t d, noises g1 b a t d = noises g2 b a t d) →
      ∀ b a t d, noisedActionGroup G B A T D alphaBar gt noises ts g1 b a t d =
        noisedActionGroup G B A T D alphaBar gt noises ts g2 b a t d) := by
  refine ⟨fun g1 g2 b a => ⟨rfl, rfl⟩, fun g1 g2 h b a t d => ?_⟩
  unfold noisedActionGroup
  rw [h]
  rfl

/-- Witness for C8 at a concrete two-candidate group with equal noises. -/
theorem grpo_shared_timestep_witness :
    noisedActionGroup 2 1 1 1 1 (fun _ => (1 : ℝ) / 2) (fun _ _ _ _ => 3)
      (fun _ _ _ _ _ => 7) (fun _ => 5) 0 0 0 0 0 =
    noisedActionGroup 2 1 1 1 1 (fun _ => (1 : ℝ) / 2) (fun _ _ _ _ => 3)
      (fun _ _ _ _ _ => 7) (fun _ => 5) 1 0 0 0 0 :=
  (grpo_shared_timestep 2 1 1 1 1 (fun _ => (1 : ℝ) / 2) (fun _ _ _ _ => 3)
    (fun _ _ _ _ _ => 7) (fun _ => 5)).2 0 1 (fun _ _ _ _ => rfl) 0 0 0 0

/-! ### Supervised denoise and action losses (src/DPR/model/DPR.py)

DPR.denoise_loss takes the denoised global trajectories and the ground
truth, builds future_mask = agents_future_valid[..., 1:] *
(agents_interested[..., None] > 0), computes a smooth-L1 position loss
summed over x and y, and a yaw loss torch.abs(torch.atan2(torch.sin(e),
torch.cos(e))) for e the raw heading difference, masks both and divides
each masked sum by future_mask.sum() with no guard.  DPR.action_loss does
the same on action space.  Trajectory states are embedded as triples
(x, (y, yaw)); actions as pairs.  -/

/-- torch.atan2(torch.sin(e), torch.cos(e)): the angle e wrapped into the
interval Ioc (-pi) pi, embedded through the complex argument, which is
exactly atan2 of (sin e, cos e). -/
def wrapAngle (e : ℝ) : ℝ :=
  Complex.arg (Real.cos e + Real.sin e * Complex.I)

/-- smooth_l1_loss with default beta 1: the Huber-style penalty. -/
def huber (x : ℝ) : ℝ :=
  if |x| < 1 then x ^ 2 / 2 else |x| - 1 / 2

/-- One yaw-loss summand of DPR.denoise_loss: the wrapped heading error in
absolute value. -/
def yawLossEntry (predYaw gtYaw : ℝ) : ℝ :=
  |wrapAngle (predYaw - gtYaw)|

/-- future_mask = agents_future_valid[..., 1:] * (agents_interested > 0),
as a 0/1 real tensor over (agent, future step). -/
def futureMask (A Tm : ℕ) (valid : Fin A → Fin Tm → Bool)
    (interested : Fin A → ℤ) : Fin A → Fin Tm → ℝ :=
  fun a t => (if valid a t then (1 : ℝ) else 0) * (if 0 < interested a then (1 : ℝ) else 0)

/-- future_mask.sum(). -/
def futureMaskSum (A Tm : ℕ) (valid : Fin A → Fin Tm → Bool)
    (interested : Fin A → ℤ) : ℝ :=
  ∑ a, ∑ t, futureMask A Tm valid interested a t

/-- Masked smooth-L1 position loss sum of DPR.denoise_loss. -/
def denoiseStateLossSum (A Tm : ℕ) (trajs gt : Fin A → Fin Tm → ℝ × ℝ × ℝ)
    (valid : Fin A → Fin Tm → Bool) (interested : Fin A → ℤ) : ℝ :=
  ∑ a, ∑ t,
    (huber ((trajs a t).1 - (gt a t).1) + huber ((trajs a t).2.1 - (gt a t).2.1)) *
      futureMask A Tm valid interested a t

/-- Masked wrapped-yaw loss sum of DPR.denoise_loss. -/
def denoiseYawLossSum (A Tm : ℕ) (trajs gt : Fin A → Fin Tm → ℝ × ℝ × ℝ)
    (valid : Fin A → Fin Tm → Bool) (interested : Fin A → ℤ) : ℝ :=
  ∑ a, ∑ t,
    yawLossEntry (trajs a t).2.2 (gt a t).2.2 * futureMask A Tm valid interested a t

/-- DPR.denoise_loss: the pair (state_loss_mean, yaw_loss_mean), each the
masked sum divided by future_mask.sum() with no zero guard. -/
def denoiseLoss (A Tm : ℕ) (trajs gt : Fin A → Fin Tm → ℝ × ℝ × ℝ)
    (valid : Fin A → Fin Tm → Bool) (interested : Fin A → ℤ) : ℝ × ℝ :=
  (denoiseStateLossSum A Tm trajs gt valid interested /
      futureMaskSum A Tm valid interested,
    denoiseYawLossSum A Tm trajs gt valid interested /
      futureMaskSum A Tm valid interested)

/-- action_mask = actions_valid * (agents_interested > 0). -/
def actionMaskSum (A Tm : ℕ) (actsValid : Fin A → Fin Tm → Bool)
    (interested : Fin A → ℤ) : ℝ :=
  ∑ a, ∑ t, futureMask A Tm actsValid interested a t

/-- Masked smooth-L1 action loss sum of DPR.action_loss. -/
def actionLossSum (A Tm : ℕ) (acts gt : Fin A → Fin Tm → ℝ × ℝ)
    (actsValid : Fin A → Fin Tm → Bool) (interested : Fin A → ℤ) : ℝ :=
  ∑ a, ∑ t,
    (huber ((acts a t).1 - (gt a t).1) + huber ((acts a t).2 - (gt a t).2)) *
      futureMask A Tm actsValid interested a t

/-- DPR.action_loss: masked sum over mask sum with no zero guard. -/
def actionLoss (A Tm : ℕ) (acts gt : Fin A → Fin Tm → ℝ × ℝ)
    (actsValid : Fin A → Fin Tm → Bool) (interested : Fin A → ℤ) : ℝ :=
  actionLossSum A Tm acts gt actsValid interested /
    actionMaskSum A Tm actsValid interested

/-- The wrapped angle differs from the raw angle by an integer multiple of
two pi. -/
lemma wrapAngle_eq_add_int (e : ℝ) :
    wrapAngle e = e + 2 * Real.pi * ⌊(Real.pi - e) / (2 * Real.pi)⌋ := by
  unfold wrapAngle
  rw [Complex.ofReal_cos, Complex.ofReal_sin]
  have h := Complex.arg_cos_add_sin_mul_I_sub e
  linarith [h]

/-- The wrapped angle lies in Ioc (-pi) pi. -/
lemma wrapAngle_mem_Ioc (e : ℝ) : wrapAngle e ∈ Set.Ioc (-Real.pi) Real.pi :=
  Complex.arg_mem_Ioc _

/-- Evaluation of the wrap at the raw boundary difference -6.26. -/
lemma wrapAngle_neg626 : wrapAngle (-6.26) = 2 * Real.pi - 6.26 := by
  have hpi_pos : (0 : ℝ) < 2 * Real.pi := by positivity
  have hlow : Real.pi > 3.141592 := Real.pi_gt_d6
  have hhigh : Real.pi < 3.141593 := Real.pi_lt_d6
  have hfloor : ⌊(Real.pi - (-6.26 : ℝ)) / (2 * Real.pi)⌋ = 1 := by
    rw [Int.floor_eq_iff]
    constructor
    · rw [le_div_iff₀ hpi_pos]
      push_cast
      linarith
    · rw [div_lt_iff₀ hpi_pos]
      push_cast
      linarith
  rw [wrapAngle_eq_add_int, hfloor]
  push_cast
  ring

/-- Counterexample to claim C5 as stated: at the boundary example of the
claim (true heading 3.13, predicted heading -3.13) the wrapped yaw error
magnitude used by denoiseLoss lies strictly between 0.02 and 0.03 — it is
two pi minus 6.26, about 0.0232, so it is neither approximately 0.003 as
the claim asserts nor approximately 6.26. -/
theorem heading_wrap_magnitude_counterexample :
    0.02 < yawLossEntry (-3.13) 3.13 ∧ yawLossEntry (-3.13) 3.13 < 0.03 := by
  have hlow : Real.pi > 3.141592 := Real.pi_gt_d6
  have hhigh : Real.pi < 3.141593 := Real.pi_lt_d6
  have harg : ((-3.13 : ℝ) - 3.13) = -6.26 := by norm_num
  have habs : yawLossEntry (-3.13) 3.13 = 2 * Real.pi - 6.26 := by
    unfold yawLossEntry
    rw [harg, wrapAngle_neg626, abs_of_pos (by linarith)]
  rw [habs]
  constructor <;> linarith

/-- Claim C5 (amended): the yaw error used in the supervised denoise loss
is the raw heading difference wrapped via atan2(sin, cos) into the interval
Ioc (-pi) pi — it equals the raw difference shifted by an integer multiple
of two pi — before the absolute value is taken; at the boundary example
(true 3.13, predicted -3.13) the wrapped error magnitude is exactly
two pi minus 6.26, approximately 0.023 (not approximately 6.26). -/
theorem heading_wrap_correct (p t : ℝ) :
    yawLossEntry p t = |wrapAngle (p - t)| ∧
    wrapAngle (p - t) ∈ Set.Ioc (-Real.pi) Real.pi ∧
    (∃ k : ℤ, wrapAngle (p - t) = (p - t) + 2 * Real.pi * k) ∧
    yawLossEntry (-3.13) 3.13 = 2 * Real.pi - 6.26 ∧
    0.02 < 2 * Real.pi - 6.26 ∧ 2 * Real.pi - 6.26 < 0.03 := by
  have hlow : Real.pi > 3.141592 := Real.pi_gt_d6
  have hhigh : Real.pi < 3.141593 := Real.pi_lt_d6
  refine ⟨rfl, wrapAngle_mem_Ioc _, ⟨_, wrapAngle_eq_add_int _⟩, ?_, by linarith, by linarith⟩
  unfold yawLossEntry
  rw [show ((-3.13 : ℝ) - 3.13) = -6.26 by norm_num, wrapAngle_neg626,
    abs_of_pos (by linarith)]

/-- Claim C9: with no agent simultaneously future-valid and interested, the
mask sums of denoise_loss and action_loss are zero, the masked loss sums
are zero, and the returned means are literally the division zero by zero —
no skip and no epsilon guard exists in the code. -/
theorem zero_mask_division (A Tm : ℕ)
    (trajs gtTrajs : Fin A → Fin Tm → ℝ × ℝ × ℝ)
    (valid : Fin A → Fin Tm → Bool) (interested : Fin A → ℤ)
    (acts gtActs : Fin A → Fin Tm → ℝ × ℝ)
    (actsValid : Fin A → Fin Tm → Bool)
    (h : ∀ a t, ¬(valid a t = true ∧ 0 < interested a))
    (h2 : ∀ a t, ¬(actsValid a t = true ∧ 0 < interested a)) :
    futureMaskSum A Tm valid interested = 0 ∧
    denoiseStateLossSum A Tm trajs gtTrajs valid interested = 0 ∧
    denoiseYawLossSum A Tm trajs gtTrajs valid interested = 0 ∧
    denoiseLoss A Tm trajs gtTrajs valid interested = ((0 : ℝ) / 0, (0 : ℝ) / 0) ∧
    actionMaskSum A Tm actsValid interested = 0 ∧
    actionLossSum A Tm acts gtActs actsValid interested = 0 ∧
    actionLoss A Tm acts gtActs actsValid interested = (0 : ℝ) / 0 := by
  have hmask : ∀ (v : Fin A → Fin Tm → Bool),
      (∀ a t, ¬(v a t = true ∧ 0 < interested a)) →
      ∀ a t, futureMask A Tm v interested a t = 0 := by
    intro v hv a t
    unfold futureMask
    by_cases hva : v a t = true
    · have : ¬ 0 < interested a := fun hi => hv a t ⟨hva, hi⟩
      rw [if_pos hva, if_neg this, mul_zero]
    · rw [if_neg hva, zero_mul]
  have hm1 : ∀ a t, futureMask A Tm valid interested a t = 0 := hmask valid h
  have hm2 : ∀ a t, futureMask A Tm actsValid interested a t = 0 := hmask actsValid h2
  have hs1 : futureMaskSum A Tm valid interested = 0 := by
    unfold futureMaskSum
    exact Finset.sum_eq_zero fun a _ => Finset.sum_eq_zero fun t _ => hm1 a t
  have hs2 : denoiseStateLossSum A Tm trajs gtTrajs valid interested = 0 := by
    unfold denoiseStateLossSum
    exact Finset.sum_eq_zero fun a _ => Finset.sum_eq_zero fun t _ => by
      rw [hm1 a t, mul_zero]
  have hs3 : denoiseYawLossSum A Tm trajs gtTrajs valid interested = 0 := by
    unfold denoiseYawLossSum
    exact Finset.sum_eq_zero fun a _ => Finset.sum_eq_zero fun t _ => by
      rw [hm1 a t, mul_zero]
  have hs4 : actionMaskSum A Tm actsValid interested = 0 := by
    unfold actionMaskSum
    exact Finset.sum_eq_zero fun a _ => Finset.sum_eq_zero fun t _ => hm2 a t
  have hs5 : actionLossSum A Tm acts gtActs actsValid interested = 0 := by
    unfold actionLossSum
    exact Finset.sum_eq_zero fun a _ => Finset.sum_eq_zero fun t _ => by
      rw [hm2 a t, mul_zero]
  refine ⟨hs1, hs2, hs3, ?_, hs4, hs5, ?_⟩
  · unfold denoiseLoss
    rw [hs1, hs2, hs3]
  · unfold actionLoss
    rw [hs4, hs5]

/-- Witness for C9: a one-agent, one-step batch whose only agent is valid
but not marked interested. -/
theorem zero_mask_division_witness :
    futureMaskSum 1 1 (fun _ _ => true) (fun _ => 0) = 0 ∧
    denoiseLoss 1 1 (fun _ _ => (1, 2, 3)) (fun _ _ => (4, 5, 6))
      (fun _ _ => true) (fun _ => 0) = ((0 : ℝ) / 0, (0 : ℝ) / 0) := by
  have h := zero_mask_division 1 1 (fun _ _ => (1, 2, 3)) (fun _ _ => (4, 5, 6))
    (fun _ _ => true) (fun _ => 0) (fun _ _ => (1, 2)) (fun _ _ => (3, 4))
    (fun _ _ => true) (fun a t hc => absurd hc.2 (lt_irrefl 0))
    (fun a t hc => absurd hc.2 (lt_irrefl 0))
  exact ⟨h.1, h.2.2.2.1⟩

/-! ### Total-loss accumulator dynamics (DPR.py and GRPO.py
forward_and_get_loss)

Both loss engines initialise total_loss with the Python integer 0 and only
ever replace it with a tensor inside the two training branches; the final
logging line calls total_loss.item().  A Python int has no item method, so
with both branches disabled the call raises instead of returning a zero
loss.  The dynamic value is embedded as a sum type of the two runtime
types, and .item() as a fallible operation.  -/

/-- A Python value flowing through the total_loss accumulator: either the
int literal 0 it starts as, or a torch scalar tensor. -/
inductive PyVal where
  | int : ℤ → PyVal
  | tensor : ℝ → PyVal

/-- Python addition of the accumulator with a scalar loss tensor: int plus
tensor promotes to tensor, tensor plus tensor stays tensor. -/
def pyAddTensor : PyVal → ℝ → PyVal
  | PyVal.int n, x => PyVal.tensor (n + x)
  | PyVal.tensor a, x => PyVal.tensor (a + x)

/-- The runtime error message of calling .item() on a Python int. -/
def intItemError : String :=
  "AttributeError: int object has no attribute item"

/-- total_loss.item(): defined on tensors, raises on the initial int. -/
def PyVal.item : PyVal → Except String ℝ
  | PyVal.int _ => Except.error intItemError
  | PyVal.tensor x => Except.ok x

/-- DPR.forward_and_get_loss, prediction-type dispatch inside the denoiser
branch: sample, error and mean produce a loss; any other string raises
ValueError Invalid prediction type. -/
def dprDenoiseBranch (predictionType : String) (sampleLoss errorLoss meanLoss : ℝ) :
    Except String ℝ :=
  if predictionType = "sample" then Except.ok sampleLoss
  else if predictionType = "error" then Except.ok errorLoss
  else if predictionType = "mean" then Except.ok meanLoss
  else Except.error "Invalid prediction type"

/-- DPR.forward_and_get_loss reduced to its total-loss dataflow:
total_loss = 0, the denoiser branch adds its loss when enabled (propagating
the invalid-configuration error uncaught), the predictor branch adds its
loss when enabled, and the function ends by logging total_loss.item(). -/
def dprForwardAndGetLoss (trainDenoiser trainPredictor : Bool)
    (predictionType : String) (sampleLoss errorLoss meanLoss predLoss : ℝ) :
    Except String ℝ := do
  let total : PyVal := PyVal.int 0
  let total ←
    if trainDenoiser then do
      let dl ← dprDenoiseBranch predictionType sampleLoss errorLoss meanLoss
      pure (pyAddTensor total dl)
    else pure total
  let total := if trainPredictor then pyAddTensor total predLoss else total
  total.item

/-- GRPO.forward_and_get_loss reduced to the same dataflow: the GRPO branch
assigns total_loss = policy_loss + kl_penalty when enabled, the predictor
branch adds its loss, then total_loss.item() is logged. -/
def grpoForwardAndGetLoss (trainDenoiser trainPredictor : Bool)
    (grpoLoss predLoss : ℝ) : Except String ℝ :=
  let total : PyVal := PyVal.int 0
  let total := if trainDenoiser then PyVal.tensor grpoLoss else total
  let total := if trainPredictor then pyAddTensor total predLoss else total
  total.item

/-- Claim C6: for every prediction_type outside sample, error and mean, the
supervised loss computation fails with the invalid-configuration error,
which propagates uncaught out of forward_and_get_loss; no loss value is
produced. -/
theorem invalid_prediction_type_fails (pt : String)
    (h1 : pt ≠ "sample") (h2 : pt ≠ "error") (h3 : pt ≠ "mean")
    (tp : Bool) (sl el ml pl : ℝ) :
    dprDenoiseBranch pt sl el ml = Except.error "Invalid prediction type" ∧
    dprForwardAndGetLoss true tp pt sl el ml pl =
      Except.error "Invalid prediction type" ∧
    ∀ v : ℝ, dprForwardAndGetLoss true tp pt sl el ml pl ≠ Except.ok v := by
  have hbr : dprDenoiseBranch pt sl el ml = Except.error "Invalid prediction type" := by
    unfold dprDenoiseBranch
    rw [if_neg h1, if_neg h2, if_neg h3]
  have hall : dprForwardAndGetLoss true tp pt sl el ml pl =
      Except.error "Invalid prediction type" := by
    unfold dprForwardAndGetLoss
    rw [if_pos rfl]
    rw [hbr]
    rfl
  exact ⟨hbr, hall, fun v hv => by rw [hall] at hv; exact Except.noConfusion hv⟩

/-- Witness for C6 at the unsupported prediction type value foo. -/
theorem invalid_prediction_type_fails_witness :
    dprForwardAndGetLoss true false "foo" 1 2 3 4 =
      Except.error "Invalid prediction type" :=
  (invalid_prediction_type_fails "foo" (by decide) (by decide) (by decide)
    false 1 2 3 4).2.1

/-- Claim C10: with both training flags disabled, forward_and_get_loss (in
both the supervised and the GRPO engine) leaves total_loss as the Python
int 0 and the final .item() call fails — the call raises instead of
returning a zero loss, so a loss is returned only when at least one branch
runs. -/
theorem no_training_branch_no_loss (td tp : Bool) (pt : String)
    (sl el ml pl gl : ℝ) (h1 : td = false) (h2 : tp = false) :
    dprForwardAndGetLoss td tp pt sl el ml pl = Except.error intItemError ∧
    grpoForwardAndGetLoss td tp gl pl = Except.error intItemError ∧
    (∀ v : ℝ, dprForwardAndGetLoss td tp pt sl el ml pl ≠ Except.ok v) ∧
    (∀ v : ℝ, grpoForwardAndGetLoss td tp gl pl ≠ Except.ok v) := by
  subst h1 h2
  have hd : dprForwardAndGetLoss false false pt sl el ml pl =
      Except.error intItemError := by
    unfold dprForwardAndGetLoss
    simp [PyVal.item, Except.bind]
  have hg : grpoForwardAndGetLoss false false gl pl = Except.error intItemError := by
    unfold grpoForwardAndGetLoss
    simp [PyVal.item]
  refine ⟨hd, hg, fun v hv => ?_, fun v hv => ?_⟩
  · rw [hd] at hv; exact Except.noConfusion hv
  · rw [hg] at hv; exact Except.noConfusion hv

/-- Witness for C10 at concrete loss values. -/
theorem no_training_branch_no_loss_witness :
    dprForwardAndGetLoss false false "sample" 1 2 3 4 = Except.error intItemError ∧
    grpoForwardAndGetLoss false false 5 6 = Except.error intItemError := by
  have h := no_training_branch_no_loss false false "sample" 1 2 3 4 5 rfl rfl
  exact ⟨h.1, h.2.1⟩

/-! ### Goal-predictor loss (DPR.goal_loss and GRPO.goal_loss, identical)

goal_loss flattens batch and agent into rows.  Per row it computes
idx_anchor = argmin over anchors of the Euclidean distance between the
anchor (already transformed to the global frame upstream) and the
ground-truth endpoint, and idx = argmin over anchors of the masked mean
displacement of the rolled-out trajectory (dist * traj_mask then .mean(-1));
it selects idx_anchor when the final future state is valid and idx
otherwise, applies the smooth-L1 loss summed over x, y and heading to the
selected trajectory, and uses the selected index as the cross-entropy label
for the score head.  Anchor indices are embedded as naturals 0..Q, where
Q + 1 is the anchor count; torch.argmin keeps the first minimiser.  -/

/-- torch.norm over the last dimension of a 2-vector. -/
def norm2 (p : ℝ × ℝ) : ℝ :=
  Real.sqrt (p.1 ^ 2 + p.2 ^ 2)

/-- First index attaining the minimum of f on 0..n, as torch.argmin. -/
def argminIdx (f : ℕ → ℝ) : ℕ → ℕ
  | 0 => 0
  | n + 1 => if f (n + 1) < f (argminIdx f n) then n + 1 else argminIdx f n

/-- The argmin index stays within the scanned range. -/
lemma argminIdx_le (f : ℕ → ℝ) (n : ℕ) : argminIdx f n ≤ n := by
  induction n with
  | zero => exact le_refl 0
  | succ n ih =>
    rw [argminIdx]
    by_cases h : f (n + 1) < f (argminIdx f n)
    · rw [if_pos h]
    · rw [if_neg h]
      exact le_trans ih (Nat.le_succ n)

/-- The argmin index minimises f over the scanned range. -/
lemma argminIdx_min (f : ℕ → ℝ) (n : ℕ) :
    ∀ k ≤ n, f (argminIdx f n) ≤ f k := by
  induction n with
  | zero =>
    intro k hk
    rw [Nat.le_zero.mp hk]
    exact le_refl _
  | succ n ih =>
    intro k hk
    rw [argminIdx]
    by_cases h : f (n + 1) < f (argminIdx f n)
    · rw [if_pos h]
      rcases Nat.lt_succ_iff_lt_or_eq.mp (Nat.lt_succ_of_le hk) with hk' | hk'
      · exact le_trans h.le (ih k (Nat.lt_succ_iff.mp hk'))
      · rw [hk']
    · rw [if_neg h]
      rcases Nat.lt_succ_iff_lt_or_eq.mp (Nat.lt_succ_of_le hk) with hk' | hk'
      · exact ih k (Nat.lt_succ_iff.mp hk')
      · rw [hk']
        exact not_lt.mp h

/-- Euclidean distance of anchor q to the ground-truth endpoint:
torch.norm(anchors_global - goal_gt, dim=-1). -/
def endpointDist (anchors : ℕ → ℝ × ℝ) (goal : ℝ × ℝ) (q : ℕ) : ℝ :=
  norm2 ((anchors q).1 - goal.1, (anchors q).2 - goal.2)

/-- Masked mean displacement of candidate trajectory q:
dist = norm(trajs - trajs_gt) * traj_mask, then .mean(-1) over the T
timesteps. -/
def maskedADE (T : ℕ) (trajs : ℕ → Fin T → ℝ × ℝ × ℝ)
    (gtT : Fin T → ℝ × ℝ × ℝ) (mask : Fin T → ℝ) (q : ℕ) : ℝ :=
  (∑ t, norm2 ((trajs q t).1 - (gtT t).1, (trajs q t).2.1 - (gtT t).2.1) * mask t) / T

/-- goal_loss index selection: torch.where(valid_end, idx_anchor, idx). -/
def selectIdx (Q T : ℕ) (anchors : ℕ → ℝ × ℝ) (goal : ℝ × ℝ)
    (trajs : ℕ → Fin T → ℝ × ℝ × ℝ) (gtT : Fin T → ℝ × ℝ × ℝ)
    (mask : Fin T → ℝ) (validEnd : Bool) : ℕ :=
  if validEnd then argminIdx (endpointDist anchors goal) Q
  else argminIdx (maskedADE T trajs gtT mask) Q

/-- cross_entropy(scores, label) on one row of Q + 1 logits:
minus the label logit plus the log of the summed exponentials. -/
def crossEntropyLoss (Q : ℕ) (scores : ℕ → ℝ) (label : ℕ) : ℝ :=
  -(scores label) + Real.log (∑ q ∈ Finset.range (Q + 1), Real.exp (scores q))

/-- Masked smooth-L1 loss of one trajectory against the ground truth,
summed over x, y, heading and the timesteps. -/
def smoothTrajLoss (T : ℕ) (traj : Fin T → ℝ × ℝ × ℝ)
    (gtT : Fin T → ℝ × ℝ × ℝ) (mask : Fin T → ℝ) : ℝ :=
  ∑ t,
    (huber ((traj t).1 - (gtT t).1) + huber ((traj t).2.1 - (gtT t).2.1) +
      huber ((traj t).2.2 - (gtT t).2.2)) * mask t

/-- One row of goal_loss: the smooth trajectory loss of the selected
candidate and the classification loss with the selected index as label. -/
def goalLossRow (Q T : ℕ) (anchors : ℕ → ℝ × ℝ) (goal : ℝ × ℝ)
    (trajs : ℕ → Fin T → ℝ × ℝ × ℝ) (gtT : Fin T → ℝ × ℝ × ℝ)
    (mask : Fin T → ℝ) (scores : ℕ → ℝ) (validEnd : Bool) : ℝ × ℝ :=
  (smoothTrajLoss T (trajs (selectIdx Q T anchors goal trajs gtT mask validEnd)) gtT mask,
    crossEntropyLoss Q scores (selectIdx Q T anchors goal trajs gtT mask validEnd))

/-- Claim C7: hard best-of-K anchor selection — with a valid final future
state the selected anchor minimises the Euclidean distance to the
ground-truth endpoint over all Q + 1 anchors, otherwise it minimises the
masked mean displacement of the rolled-out trajectories; the selected index
stays in range, the smooth position-and-heading loss is applied exactly to
the selected trajectory, and the same index is the cross-entropy label of
the score head. -/
theorem goal_loss_anchor_selection (Q T : ℕ) (anchors : ℕ → ℝ × ℝ)
    (goal : ℝ × ℝ) (trajs : ℕ → Fin T → ℝ × ℝ × ℝ) (gtT : Fin T → ℝ × ℝ × ℝ)
    (mask : Fin T → ℝ) (scores : ℕ → ℝ) (validEnd : Bool) :
    (validEnd = true → ∀ q ≤ Q,
      endpointDist anchors goal (selectIdx Q T anchors goal trajs gtT mask validEnd) ≤
        endpointDist anchors goal q) ∧
    (validEnd = false → ∀ q ≤ Q,
      maskedADE T trajs gtT mask (selectIdx Q T anchors goal trajs gtT mask validEnd) ≤
        maskedADE T trajs gtT mask q) ∧
    selectIdx Q T anchors goal trajs gtT mask validEnd ≤ Q ∧
    goalLossRow Q T anchors goal trajs gtT mask scores validEnd =
      (smoothTrajLoss T (trajs (selectIdx Q T anchors goal trajs gtT mask validEnd)) gtT mask,
        crossEntropyLoss Q scores (selectIdx Q T anchors goal trajs gtT mask validEnd)) := by
  refine ⟨?_, ?_, ?_, rfl⟩
  · intro hv q hq
    unfold selectIdx
    rw [hv, if_pos rfl]
    exact argminIdx_min _ Q q hq
  · intro hv q hq
    unfold selectIdx
    rw [hv, if_neg (by simp)]
    exact argminIdx_min _ Q q hq
  · unfold selectIdx
    by_cases hv : validEnd = true
    · rw [hv, if_pos rfl]
      exact argminIdx_le _ Q
    · rw [if_neg hv]
      exact argminIdx_le _ Q

/-- Witness for C7 on two concrete anchors with a valid endpoint: the
selected anchor is at least as close to the goal as anchor 1. -/
theorem goal_loss_anchor_selection_witness :
    endpointDist (fun q => if q = 0 then ((0 : ℝ), (0 : ℝ)) else (5, 5)) (0, 0)
      (selectIdx 1 1 (fun q => if q = 0 then ((0 : ℝ), (0 : ℝ)) else (5, 5)) (0, 0)
        (fun _ _ => (0, 0, 0)) (fun _ => (0, 0, 0)) (fun _ => 1) true) ≤
    endpointDist (fun q => if q = 0 then ((0 : ℝ), (0 : ℝ)) else (5, 5)) (0, 0) 1 :=
  (goal_loss_anchor_selection 1 1 (fun q => if q = 0 then ((0 : ℝ), (0 : ℝ)) else (5, 5))
    (0, 0) (fun _ _ => (0, 0, 0)) (fun _ => (0, 0, 0)) (fun _ => 1) (fun _ => 0)
    true).1 rfl 1 (le_refl 1)

end

end DPRSpec
